import Mathlib

/-!
Shallow embedding of the tool layer of `ki.py` (an agent exposing shell,
file, Excel and Python-snippet tools).

Python text values (`str`) are modelled as lists of characters, so that
character-level slicing (`data[:max_chars]`) and lengths are exact.
-/

/-- Python strings are sequences of characters; we embed them as `List Char`. -/
abbrev Str := List Char

/-- Coerce a Lean string literal into the `Str` model. -/
def str (s : String) : Str := s.toList

/-! ### Command Executor: `sh` (ki.py lines 11-25)

`sh` calls `subprocess.run(cmd, shell=True, capture_output=True, text=True,
timeout=60)` inside `try`.  The possible outcomes of that call are:
the process launched and finished within 60 seconds (any exit code;
`run` without `check=True` never raises on a nonzero exit status),
the 60-second timeout elapsed (the child is killed and `run` raises
`subprocess.TimeoutExpired`; the output collected before the kill is stored
on the exception object but `str(e)` renders only
`Command <cmd> timed out after 60 seconds`), or the launch itself failed
with some exception.  The `except Exception` branch returns `error:` plus
`str(e)`. -/

inductive ShOutcome where
  /-- the command ran to completion within the timeout -/
  | completed (stdout stderr : Str) (exitCode : Int)
  /-- the 60s timeout elapsed; `collected` is the output gathered before the
      forcible kill (available as `e.output`, but unused by the handler) -/
  | timedOut (cmd : Str) (collected : Str)
  /-- `subprocess.run` raised before/at launch (e.g. interpreter missing) -/
  | launchFailure (msg : Str)
deriving DecidableEq

/-- Rendering of `str(subprocess.TimeoutExpired(cmd, 60))`: the message names
the command and the timeout; the collected output is not part of it. -/
def timeoutExpiredMsg (cmd : Str) : Str :=
  str "Command \x27" ++ cmd ++ str "\x27 timed out after 60 seconds"

/-- The `sh` tool (ki.py lines 21-25): on completion return
`(r.stdout or "") + (r.stderr or "")`; on any exception return
`"error:" + str(e)`. -/
def sh : ShOutcome → Str
  | .completed stdout stderr _ => stdout ++ stderr
  | .timedOut cmd _ => str "error:" ++ timeoutExpiredMsg cmd
  | .launchFailure m => str "error:" ++ m

/-! ### File Service: `read_file` / `write_file` (ki.py lines 28-63)

The filesystem is modelled as a map from paths to optional file contents;
`os.makedirs` only affects directories, which the map leaves implicit. -/

/-- Filesystem model: path to file content. -/
abbrev FS := Str → Option Str

/-- The marker `read_file` appends when the content was cut at `max_chars`. -/
def truncationMarker : Str := str "...[truncated]"

/-- Message of the `FileNotFoundError` raised by `open` on a missing path. -/
def fileNotFoundMsg (path : Str) : Str :=
  str "[Errno 2] No such file or directory: \x27" ++ path ++ str "\x27"

/-- The `read_file` tool (ki.py lines 39-44): read the file, return
`data[:max_chars]` plus the truncation marker when `len(data) > max_chars`;
a failing `open` is caught and returned as `error:` text. -/
def read_file (fs : FS) (path : Str) (maxChars : Nat := 20000) : Str :=
  match fs path with
  | some data =>
      data.take maxChars ++ (if maxChars < data.length then truncationMarker else [])
  | none => str "error:" ++ fileNotFoundMsg path

/-- The `write_file` tool (ki.py lines 57-63): create parent directories,
write `content` at `path` (overwriting), return `"saved:" + path`.
Returns the updated filesystem together with the tool result. -/
def write_file (fs : FS) (path content : Str) : FS × Str :=
  (fun q => if q = path then some content else fs q, str "saved:" ++ path)

/-! ### Snippet Executor: `py` (ki.py lines 132-150)

`py` runs `exec(code, ns, ns)` with stdout redirected into a buffer, inside
`try ... except Exception`.  An execution of the snippet either finishes
normally having printed some text, or raises.  Python distinguishes errors
that derive from `Exception` (caught by the handler) from the remaining
`BaseException` subclasses (`SystemExit`, `KeyboardInterrupt`), which the
`except Exception` clause does not catch, so they propagate out of the tool.
The result type `Except Str Str` separates a returned text (`ok`) from an
exception escaping the tool boundary (`error`). -/

inductive ErrClass where
  /-- an error deriving from `Exception` -/
  | exception
  /-- a `BaseException` that is not an `Exception`, e.g. `SystemExit` -/
  | baseOnly
deriving DecidableEq

inductive ExecOutcome where
  /-- the snippet ran to the end, having printed `printed` -/
  | normal (printed : Str)
  /-- the snippet printed `printed`, then raised an error of class `cls` -/
  | raises (printed : Str) (cls : ErrClass) (msg : Str)
deriving DecidableEq

/-- Whether the outcome makes an exception escape the `except Exception`
clause of the handler. -/
def ExecOutcome.escapes : ExecOutcome → Bool
  | .raises _ .baseOnly _ => true
  | _ => false

/-- The `py` tool (ki.py lines 142-150): on normal termination return the
captured stdout, or `"ok"` when nothing was printed; on a raised `Exception`
return `"error:" + str(e)` (the buffer is never read on this path); an error
outside the `Exception` hierarchy escapes uncaught. -/
def py : ExecOutcome → Except Str Str
  | .normal printed => .ok (if printed = [] then str "ok" else printed)
  | .raises _ .exception msg => .ok (str "error:" ++ msg)
  | .raises _ .baseOnly msg => .error msg

/-! ### Tabular Data Service (ki.py lines 66-129)

A loaded sheet is a pandas DataFrame; we model it as an ordered column list
with a list of rows.  Cells are `Option Int`: `none` models a missing value
(pandas `NaN`), `some n` a numeric value.  (Exact float arithmetic is
abstracted to `Int`; none of the verified claims depends on cell
arithmetic.) -/

/-- A cell of a sheet; `none` is pandas `NaN` (an empty spreadsheet cell). -/
abbrev Cell := Option Int

structure DataFrame where
  columns : List Str
  data : List (List Cell)
deriving DecidableEq

/-- `row[c]` for column name `c`: position of `c` in the column list, then
that cell of the row (missing positions collapse to `NaN`). -/
def getCell (cols : List Str) (row : List Cell) (c : Str) : Cell :=
  match cols.findIdx? (fun x => x = c) with
  | some i => (row.get? i).join
  | none => none

/-- `df[c]`: the column of `df` named `c`, one cell per row. -/
def DataFrame.col (df : DataFrame) (c : Str) : List Cell :=
  df.data.map (fun r => getCell df.columns r c)

/-- `df.head(n)`: the first `n` rows. -/
def DataFrame.headRows (df : DataFrame) (n : Nat) : DataFrame :=
  ⟨df.columns, df.data.take n⟩

/-- `int(df[c].isna().sum())`: number of `NaN` cells in column `c`. -/
def naCount (df : DataFrame) (c : Str) : Nat :=
  ((df.col c).filter Option.isNone).length

/-- `str(df[c].dtype)` under the cell model: an all-numeric column prints as
`int64`; a column containing `NaN` is promoted to `float64`. -/
def dtypeOf (col : List Cell) : Str :=
  if col.all Option.isSome then str "int64" else str "float64"

/-- Rendering of one cell in a markdown/CSV table. -/
def mdCell : Cell → Str
  | some n => str (toString n)
  | none => str "nan"

/-- One `| a | b |` line of a markdown table. -/
def mdRow (cells : List Str) : Str :=
  str "| " ++ List.intercalate (str " | ") cells ++ str " |"

/-- `df.to_markdown(index=False)`: header line, separator line, one line per
row (cell padding of the tabulate library is abstracted away). -/
def toMarkdown (df : DataFrame) : Str :=
  List.intercalate (str "\n")
    ([mdRow df.columns, mdRow (df.columns.map (fun _ => str "---"))]
      ++ df.data.map (fun r => mdRow (r.map mdCell)))

/-! #### Workbook loading

`pd.read_excel(path, sheet_name=sheet, engine="openpyxl")` where `sheet` is
the tool argument: for `sheet_name=<string>` it returns the one named
DataFrame (raising if absent); for `sheet_name=None` it returns a dict
mapping every sheet name to its DataFrame, not the first sheet (the first
sheet would be `sheet_name=0`, the pandas default that this code never
uses). -/

structure Workbook where
  sheets : List (Str × DataFrame)
deriving DecidableEq

/-- What `pd.read_excel` produced: one DataFrame, or the dict of all sheets. -/
inductive PdLoaded where
  | one (df : DataFrame)
  | allSheets (sheets : List (Str × DataFrame))
deriving DecidableEq

def lookupSheet (ss : List (Str × DataFrame)) (name : Str) : Option DataFrame :=
  (ss.find? (fun sd => sd.1 = name)).map (fun sd => sd.2)

def pdReadExcel (wb : Workbook) : Option Str → Except Str PdLoaded
  | none => .ok (.allSheets wb.sheets)
  | some s =>
      match lookupSheet wb.sheets s with
      | some df => .ok (.one df)
      | none => .error (str "Worksheet named \x27" ++ s ++ str "\x27 not found")

/-- Message of the `AttributeError` raised when the dict returned by
`pd.read_excel(..., sheet_name=None)` is used as a DataFrame. -/
def dictAttrErr (attr : Str) : Str :=
  str "\x27dict\x27 object has no attribute \x27" ++ attr ++ str "\x27"

/-! #### `read_excel` (ki.py lines 67-89) -/

/-- A JSON value as `json.dumps` receives it from the `info` dict: the dict
is flat apart from one string list and two string-keyed sub-dicts. -/
inductive JVal where
  | num (n : Nat)
  | jstr (s : Str)
  | strArr (xs : List Str)
  | strObj (kvs : List (Str × Str))
  | numObj (kvs : List (Str × Nat))
deriving DecidableEq

/-- The `info` dict built by `read_excel` (ki.py lines 80-86), as an ordered
key/value list (Python dicts preserve insertion order, and `json.dumps`
serializes keys in that order). -/
def infoJson (df : DataFrame) (head : Nat) : List (Str × JVal) :=
  [ (str "rows", .num df.data.length),
    (str "columns", .strArr df.columns),
    (str "dtypes", .strObj (df.columns.map (fun c => (c, dtypeOf (df.col c))))),
    (str "na_counts", .numObj (df.columns.map (fun c => (c, naCount df c)))),
    (str "preview_markdown", .jstr (toMarkdown (df.headRows head))) ]

/-- The keys of the serialized `info` object, in order. -/
def infoKeys (df : DataFrame) (head : Nat) : List Str :=
  (infoJson df head).map Prod.fst

def jquote (s : Str) : Str := str "\"" ++ s ++ str "\""

def renderJVal : JVal → Str
  | .num n => str (toString n)
  | .jstr s => jquote s
  | .strArr xs => str "[" ++ List.intercalate (str ", ") (xs.map jquote) ++ str "]"
  | .strObj kvs =>
      str "\x7b" ++ List.intercalate (str ", ")
        (kvs.map (fun kv => jquote kv.1 ++ str ": " ++ jquote kv.2)) ++ str "\x7d"
  | .numObj kvs =>
      str "\x7b" ++ List.intercalate (str ", ")
        (kvs.map (fun kv => jquote kv.1 ++ str ": " ++ str (toString kv.2))) ++ str "\x7d"

/-- `json.dumps(info, ensure_ascii=False)`. -/
def jsonDumps (kvs : List (Str × JVal)) : Str :=
  str "\x7b" ++ List.intercalate (str ", ")
    (kvs.map (fun kv => jquote kv.1 ++ str ": " ++ renderJVal kv.2)) ++ str "\x7d"

/-- The `read_excel` tool (ki.py lines 78-89).  With `sheet = none` the
loaded value is a dict, so evaluating `df.columns` inside the `try` raises
`AttributeError`, which the handler converts to `error:` text. -/
def read_excel (wb : Workbook) (sheet : Option Str) (head : Nat := 5) : Str :=
  match pdReadExcel wb sheet with
  | .error m => str "error:" ++ m
  | .ok (.allSheets _) => str "error:" ++ dictAttrErr (str "columns")
  | .ok (.one df) => jsonDumps (infoJson df head)

/-! #### `excel_groupby` (ki.py lines 92-110)

`df.groupby(by)[value].agg(agg).reset_index()` with pandas defaults:
`sort=True` (group keys are sorted) and `dropna=True` (rows whose key tuple
contains a `NaN` are dropped before grouping).  `reset_index()` turns the
key levels back into columns, so the result has columns `by + [value]`.
The pandas failure modes reproduced here all raise inside the `try` and
become `error:` text: empty `by` (ValueError), a `by` or `value` name absent
from the sheet (KeyError), a duplicated `by` name (ValueError), `value`
listed in `by` (reset_index cannot re-insert an existing column), and an
aggregation name that is no Series reduction (AttributeError). -/

/-- The aggregation names the model enumerates (`s.agg("<name>")`). -/
def aggNames : List Str := [str "sum", str "mean", str "count", str "min", str "max"]

/-- `s.agg(agg)` on one group of cells.  All pandas reductions skip `NaN`
(`skipna=True`); `sum` of an all-`NaN` group is `0`, `count` counts the
non-`NaN` cells, `mean`/`min`/`max` of an all-`NaN` group are `NaN`.
(`mean` uses integer division here; no claim depends on its value.) -/
def aggApply (agg : Str) (cs : List Cell) : Cell :=
  let vs := cs.filterMap id
  if agg = str "sum" then some vs.sum
  else if agg = str "count" then some (vs.length : Int)
  else if agg = str "mean" then (if vs = [] then none else some (vs.sum / vs.length))
  else if agg = str "min" then vs.min?
  else if agg = str "max" then vs.max?
  else none

/-- The key tuple of one row under the grouping columns `gby`. -/
def rowKey (cols : List Str) (gby : List Str) (row : List Cell) : List Cell :=
  gby.map (getCell cols row)

/-- Order on cells used to sort group keys (pandas sorts `NaN` last, but
sorted keys here never contain `NaN` because of `dropna`). -/
def cellLe : Cell → Cell → Bool
  | none, _ => true
  | some _, none => false
  | some a, some b => a ≤ b

/-- Lexicographic order on key tuples. -/
def keyLe : List Cell → List Cell → Bool
  | [], _ => true
  | _ :: _, [] => false
  | a :: as, b :: bs => if a = b then keyLe as bs else cellLe a b

/-- Insertion into a `keyLe`-sorted list of key tuples. -/
def insertKey (k : List Cell) : List (List Cell) → List (List Cell)
  | [] => [k]
  | x :: xs => if keyLe k x then k :: x :: xs else x :: insertKey k xs

/-- Sorting of the group keys (pandas `groupby` default `sort=True`). -/
def sortKeys : List (List Cell) → List (List Cell)
  | [] => []
  | x :: xs => insertKey x (sortKeys xs)

/-- `df.groupby(by)[value].agg(agg).reset_index()` (ki.py line 107):
either the raised pandas error, or the result DataFrame. -/
def groupbyAgg (df : DataFrame) (gby : List Str) (value : Str) (agg : Str) :
    Except Str DataFrame :=
  if gby = [] then .error (str "No group keys passed!")
  else if ¬ gby.all (fun c => c ∈ df.columns) then
    .error (str "KeyError: grouping column not in columns")
  else if gby.dedup.length ≠ gby.length then
    .error (str "Grouper not 1-dimensional")
  else if value ∉ df.columns then
    .error (str "KeyError: column not found")
  else if value ∈ gby then
    .error (str "cannot insert column, already exists")
  else if agg ∉ aggNames then
    .error (str "SeriesGroupBy object has no attribute " ++ agg)
  else
    let kept := df.data.filter (fun r => (rowKey df.columns gby r).all Option.isSome)
    let keys := sortKeys ((kept.map (rowKey df.columns gby)).dedup)
    .ok { columns := gby ++ [value],
          data := keys.map (fun k =>
            k ++ [aggApply agg
              ((kept.filter (fun r => rowKey df.columns gby r = k)).map
                (fun r => getCell df.columns r value))]) }

/-- The `excel_groupby` tool (ki.py lines 105-110): load the sheet, group
and aggregate, render as markdown; every raised error becomes `error:` text.
With `sheet = none` the loaded value is a dict and `df.groupby` raises
`AttributeError`. -/
def excel_groupby (wb : Workbook) (sheet : Option Str) (gby : List Str)
    (value : Str) (agg : Str := str "sum") : Str :=
  match pdReadExcel wb sheet with
  | .error m => str "error:" ++ m
  | .ok (.allSheets _) => str "error:" ++ dictAttrErr (str "groupby")
  | .ok (.one df) =>
      match groupbyAgg df gby value agg with
      | .error m => str "error:" ++ m
      | .ok g => toMarkdown g

/-! #### `to_csv_from_excel` (ki.py lines 113-129) -/

/-- Rendering of one cell in `df.to_csv`: `NaN` becomes the empty field. -/
def csvCell : Cell → Str
  | some n => str (toString n)
  | none => []

/-- `df.to_csv(out_csv, index=False)`: comma-joined header then one line per
row, with a trailing newline. -/
def toCsvText (df : DataFrame) : Str :=
  List.intercalate (str "\n")
    (List.intercalate (str ",") df.columns
      :: df.data.map (fun r => List.intercalate (str ",") (r.map csvCell)))
    ++ str "\n"

/-- The `to_csv_from_excel` tool (ki.py lines 124-129): load the sheet,
write it as CSV to `outCsv`, return `"saved:" + out_csv`; with
`sheet = none` the loaded value is a dict and `df.to_csv` raises
`AttributeError`.  Returns the updated filesystem with the tool result. -/
def to_csv_from_excel (wb : Workbook) (sheet : Option Str) (outCsv : Str)
    (fs : FS) : FS × Str :=
  match pdReadExcel wb sheet with
  | .error m => (fs, str "error:" ++ m)
  | .ok (.allSheets _) => (fs, str "error:" ++ dictAttrErr (str "to_csv"))
  | .ok (.one df) =>
      (fun q => if q = outCsv then some (toCsvText df) else fs q,
       str "saved:" ++ outCsv)

/-! ### Spec-side definitions

These follow the wording of the specification (not the source); they exist
to be compared with the behaviour of the embedded code. -/

/-- Modelled from the spec: "one output row per distinct key tuple" — the
distinct key tuples of the sheet under the grouping columns, with no
proviso about missing values. -/
def distinctKeyTuples (df : DataFrame) (gby : List Str) : List (List Cell) :=
  (df.data.map (rowKey df.columns gby)).dedup

/-- The distinct key tuples containing no `NaN` component — the groups that
pandas `groupby` (with its default `dropna=True`) actually forms. -/
def nonNullKeyTuples (df : DataFrame) (gby : List Str) : List (List Cell) :=
  ((df.data.filter (fun r => (rowKey df.columns gby r).all Option.isSome)).map
    (rowKey df.columns gby)).dedup

/-! ### Concrete data used by counterexamples and witnesses -/

/-- A one-column, one-row sheet. -/
def exDfA : DataFrame := ⟨[str "a"], [[some 1]]⟩

/-- A workbook with the single sheet `Sheet1 = exDfA`. -/
def exWb : Workbook := ⟨[(str "Sheet1", exDfA)]⟩

/-- A sheet whose only row has a `NaN` in the grouping column `k`. -/
def exDfNaKey : DataFrame := ⟨[str "k", str "v"], [[none, some 1]]⟩

/-- A sheet with two rows sharing the key `k = 1`. -/
def exDfGrp : DataFrame := ⟨[str "k", str "v"], [[some 1, some 2], [some 1, some 3]]⟩

/-! ### Helper lemmas -/

theorem length_insertKey (k : List Cell) (l : List (List Cell)) :
    (insertKey k l).length = l.length + 1 := by
  induction l with
  | nil => rfl
  | cons x xs ih => simp only [insertKey]; split <;> simp [ih]

theorem length_sortKeys (l : List (List Cell)) :
    (sortKeys l).length = l.length := by
  induction l with
  | nil => rfl
  | cons x xs ih => simp [sortKeys, length_insertKey, ih]

/-! ### Claims -/

/-- C1, as stated, is false: when the 60-second timeout elapses, `sh` does
not return the output accumulated before the forcible kill.  Concretely, a
command killed after collecting `"hello"` yields the `error:`-tagged
`TimeoutExpired` message, not `"hello"`. -/
theorem sh_timeout_not_collected_output :
    sh (.timedOut (str "sleep 120") (str "hello")) ≠ str "hello" := by decide

/-- C1 amended: if the timeout elapses, the process is forcibly terminated
and `sh` returns (it neither hangs nor lets the `TimeoutExpired` exception
escape), but the returned text is the `error:`-tagged timeout message; the
output accumulated up to the kill is discarded, never part of the result. -/
theorem sh_timeout_returns_error_text (cmd collected : Str) :
    sh (.timedOut cmd collected) = str "error:" ++ timeoutExpiredMsg cmd := rfl

/-- C2, as stated, is false: the serialized object has no key `preview`;
its fifth key is `preview_markdown`. -/
theorem read_excel_keys_not_preview :
    infoKeys exDfA 5 ≠
      [str "rows", str "columns", str "dtypes", str "na_counts", str "preview"] := by
  decide

/-- C2 amended: for every loaded sheet the serialized object has exactly the
keys `rows, columns, dtypes, na_counts, preview_markdown`, in that order,
and the `preview_markdown` field is the rendered table of the first `head`
rows of the sheet. -/
theorem read_excel_info_keys (df : DataFrame) (head : Nat) :
    infoKeys df head =
      [str "rows", str "columns", str "dtypes", str "na_counts", str "preview_markdown"]
    ∧ (infoJson df head).lookup (str "preview_markdown") =
        some (.jstr (toMarkdown (df.headRows head))) :=
  ⟨rfl, rfl⟩

/-- C3 is a code bug: with `sheet = None`, `pd.read_excel(sheet_name=None)`
returns the dict of all sheets, not the first sheet, so all three Excel
tools raise `AttributeError` inside the `try` and return `error:` text
instead of operating on the first sheet (as their own docstrings promise).
Evaluated here on a concrete one-sheet workbook. -/
theorem excel_tools_sheet_none_error :
    read_excel exWb none 5 = str "error:" ++ dictAttrErr (str "columns")
    ∧ excel_groupby exWb none [str "a"] (str "v") (str "sum")
        = str "error:" ++ dictAttrErr (str "groupby")
    ∧ (to_csv_from_excel exWb none (str "out.csv") (fun _ => none)).2
        = str "error:" ++ dictAttrErr (str "to_csv") :=
  ⟨rfl, rfl, rfl⟩

/-- C9: a command that launches and finishes within the timeout returns
exactly `stdout ++ stderr`, whatever its exit code — `subprocess.run`
without `check=True` does not raise on a nonzero exit status, so no
`error:` tag is ever added on this path. -/
theorem sh_completed_concatenates (stdout stderr : Str) (exitCode : Int) :
    sh (.completed stdout stderr exitCode) = stdout ++ stderr := rfl

/-- C10: when the snippet raises an `Exception` after printing, `py` returns
only the `error:`-tagged message; the result is independent of the captured
stdout, which is discarded (`buf.getvalue()` is never read on the except
path). -/
theorem py_raise_discards_printed (printed msg : Str) :
    py (.raises printed .exception msg) = .ok (str "error:" ++ msg) := rfl

/-- C4: after `write_file p c`, reading `p` back returns exactly `c` when
`len(c) <= max_chars`, and the prefix `c[:max_chars]` followed by the
truncation marker when `len(c) > max_chars`. -/
theorem write_read_round_trip (fs : FS) (p c : Str) (mc : Nat) :
    (c.length ≤ mc → read_file (write_file fs p c).1 p mc = c)
    ∧ (mc < c.length → read_file (write_file fs p c).1 p mc = c.take mc ++ truncationMarker) := by
  have hfs : (write_file fs p c).1 p = some c := by simp [write_file]
  constructor
  · intro h
    simp [read_file, hfs, Nat.not_lt.2 h, List.take_of_length_le h]
  · intro h
    simp [read_file, hfs, h]

theorem write_read_round_trip_witness :
    read_file (write_file (fun _ => none) (str "f.txt") (str "hi")).1 (str "f.txt") 5
      = str "hi"
    ∧ read_file (write_file (fun _ => none) (str "f.txt") (str "hello")).1 (str "f.txt") 3
      = (str "hello").take 3 ++ truncationMarker :=
  ⟨(write_read_round_trip (fun _ => none) (str "f.txt") (str "hi") 5).1 (by decide),
   (write_read_round_trip (fun _ => none) (str "f.txt") (str "hello") 3).2 (by decide)⟩

/-- An output longer than any limit configured anywhere in the program. -/
def bigOutput : Str := List.replicate 20001 'a'

/-- C5, as stated, is false for `sh`: the only size limit configured in the
program is the `max_chars = 20000` of `read_file`; `sh` applies no
truncation at all, returning its output in full — here 20001 characters
with no marker, exceeding that limit. -/
theorem sh_output_unbounded :
    sh (.completed bigOutput [] 0) = bigOutput
    ∧ 20000 < (sh (.completed bigOutput [] 0)).length := by
  constructor
  · simp [sh]
  · have h : (sh (.completed bigOutput [] 0)).length = 20001 := by
      simp only [sh, List.append_nil, bigOutput, List.length_replicate]
    omega

/-- C5 amended: only `read_file` bounds its result (at most `max_chars`
characters plus the truncation marker); `sh` enforces no size cap — its
result is exactly the unbounded `stdout ++ stderr`. -/
theorem read_file_bounded_sh_not (fs : FS) (p d : Str) (mc : Nat)
    (stdout stderr : Str) (exitCode : Int) (hd : fs p = some d) :
    (read_file fs p mc).length ≤ mc + truncationMarker.length
    ∧ sh (.completed stdout stderr exitCode) = stdout ++ stderr := by
  refine ⟨?_, rfl⟩
  have h1 : (d.take mc).length ≤ mc := by
    rw [List.length_take]; exact Nat.min_le_left _ _
  simp only [read_file, hd]
  split
  · rw [List.length_append]; omega
  · rw [List.append_nil]; omega

theorem read_file_bounded_sh_not_witness :
    (read_file (fun _ => some (str "hello")) (str "f.txt") 3).length
      ≤ 3 + truncationMarker.length
    ∧ sh (.completed (str "out") (str "err") 1) = str "out" ++ str "err" :=
  read_file_bounded_sh_not (fun _ => some (str "hello")) (str "f.txt") (str "hello") 3
    (str "out") (str "err") 1 rfl

/-- C6, as stated, is false: a snippet that raises an error outside the
`Exception` hierarchy — `raise SystemExit` — escapes the
`except Exception` clause of the handler, so the exception crosses the tool boundary
instead of being returned as `error:` text. -/
theorem py_systemexit_escapes :
    (py (.raises (str "printed") .baseOnly (str "SystemExit"))).isOk = false := rfl

/-- C6 amended: every failure of class `Exception` is caught inside its
handler and returned as text (the six non-snippet tools return text on all
their outcomes by construction — all their realizable failures derive from
`Exception`); only `py` lets an error outside the `Exception` hierarchy
(`SystemExit`, `KeyboardInterrupt`) escape as a raised exception. -/
theorem py_catches_exceptions (o : ExecOutcome) (h : o.escapes = false) :
    (py o).isOk = true := by
  cases o with
  | normal printed => rfl
  | raises printed cls msg =>
      cases cls with
      | exception => rfl
      | baseOnly => simp [ExecOutcome.escapes] at h

theorem py_catches_exceptions_witness :
    (py (.raises (str "x") .exception (str "boom"))).isOk = true :=
  py_catches_exceptions (.raises (str "x") .exception (str "boom")) rfl

/-- C8: for a sheet that loads, `read_excel` serializes the `info` object
whose `rows` field is the row count of the loaded sheet, and every
`na_counts` entry is at most that row count (it is a `Nat`, hence also
nonnegative). -/
theorem read_excel_counts (wb : Workbook) (s : Str) (df : DataFrame)
    (head : Nat) (c : Str) (hlook : lookupSheet wb.sheets s = some df) :
    read_excel wb (some s) head = jsonDumps (infoJson df head)
    ∧ (infoJson df head).lookup (str "rows") = some (.num df.data.length)
    ∧ naCount df c ≤ df.data.length := by
  refine ⟨?_, rfl, ?_⟩
  · simp [read_excel, pdReadExcel, hlook]
  · calc naCount df c ≤ (df.col c).length := List.length_filter_le _ _
      _ = df.data.length := by simp [DataFrame.col]

theorem read_excel_counts_witness :
    read_excel exWb (some (str "Sheet1")) 5 = jsonDumps (infoJson exDfA 5)
    ∧ (infoJson exDfA 5).lookup (str "rows") = some (.num exDfA.data.length)
    ∧ naCount exDfA (str "a") ≤ exDfA.data.length :=
  read_excel_counts exWb (str "Sheet1") exDfA 5 (str "a") rfl

/-- C7, as stated, is false on its row-count half: pandas `groupby` defaults
to `dropna=True`, so a row whose key tuple contains a `NaN` (an empty
spreadsheet cell in a key column) forms no group.  On a sheet whose single
row has a `NaN` key, the aggregate succeeds with zero output rows although
the sheet has one distinct key tuple. -/
theorem groupby_drops_nan_key_rows :
    (groupbyAgg exDfNaKey [str "k"] (str "v") (str "sum")).toOption.map
      (fun g => g.data.length) = some 0
    ∧ (distinctKeyTuples exDfNaKey [str "k"]).length = 1 := by decide

/-- C7 amended: for every grouping that succeeds, the columns of the result are
exactly `by ++ [value]`, in that order, with one output row per distinct key
tuple all of whose components are non-null (rows with a `NaN` key component
are dropped, per the pandas `groupby` default `dropna=True`). -/
theorem groupby_columns_and_rows (df : DataFrame) (gby : List Str)
    (value agg : Str) (g : DataFrame)
    (h : groupbyAgg df gby value agg = .ok g) :
    g.columns = gby ++ [value]
    ∧ g.data.length = (nonNullKeyTuples df gby).length := by
  simp only [groupbyAgg] at h
  repeat' split at h
  any_goals exact Except.noConfusion h
  injection h with h
  subst h
  refine ⟨rfl, ?_⟩
  simp [nonNullKeyTuples, length_sortKeys]

/-- The value of `groupbyAgg exDfGrp ["k"] "v" "sum"`. -/
def exGrpRes : DataFrame := ⟨[str "k", str "v"], [[some 1, some 5]]⟩

theorem groupby_columns_and_rows_witness :
    exGrpRes.columns = [str "k"] ++ [str "v"]
    ∧ exGrpRes.data.length = (nonNullKeyTuples exDfGrp [str "k"]).length :=
  groupby_columns_and_rows exDfGrp [str "k"] (str "v") (str "sum") exGrpRes rfl
